import Mathlib

/-!
Verification of `src/federated-learning/pneumonia-federated/custom/mlflow_receiver.py`
(class `MLFlowAnalyticsReceiver`), a metrics-forwarding adapter that receives
analytics events from federated-learning peers, writes them to per-peer
TensorBoard log directories and mirrors some of them to MLflow.

The embedding models the receiver's own logic faithfully.  The third-party
SDK calls (`SummaryWriter`, `mlflow.*`, `os.makedirs`, `mlflow.set_*`) are
modelled as emitted effects collected in a trace; the host-decoded event
(`from_shareable` / `AnalyticsData.from_dxo`) is modelled as the already
decoded record the host hands over (data type, key/value items, kwargs).
-/

/-- The `AnalyticsDataType` enum from `nvflare.apis.analytix`.  The four
members used by `FUNCTION_MAPPING` are `SCALAR`, `SCALARS`, `IMAGE`, `TEXT`;
nvflare versions also expose further members (e.g. `PARAMETER`, `METRIC`,
`MODEL`), included here so that the unsupported-data-type branch of `save`
is representable. -/
inductive AnalyticsDataType
  | SCALAR
  | SCALARS
  | IMAGE
  | TEXT
  | PARAMETER
  | METRIC
  | MODEL
deriving DecidableEq, Repr

/-- An opaque Python object (a metric value, a figure, a tensor, ...).  The
receiver only passes these through verbatim, so an object is modelled by an
identity token. -/
structure PyObj where
  tok : Nat
deriving DecidableEq, Repr

/-- The `kwargs` attribute of an `AnalyticsData` record: either a Python
`dict` (the case `isinstance(analytic_data.kwargs, dict)` accepts) or any
other Python value such as `None`. -/
inductive PyKwargs
  | dict (entries : List (String × PyObj))
  | nonDict (obj : PyObj)
deriving DecidableEq, Repr

/-- The decoded analytics event: the fields of the DXO / `AnalyticsData`
record that `save` reads (`analytic_data.data_type`, `dxo.data.items()`,
`analytic_data.kwargs`). -/
structure AnalyticsEvent where
  data_type : AnalyticsDataType
  data : List (String × PyObj)
  kwargs : PyKwargs
deriving DecidableEq, Repr

/-- Python `dict.get(key, None)` over an association-list model of a dict
(most recently inserted binding first; keys are unique in all states the
receiver builds, so the order is immaterial). -/
def dictGet {α β : Type} [DecidableEq α] (t : List (α × β)) (k : α) : Option β :=
  match t with
  | [] => none
  | (k', v) :: rest => if k' = k then some v else dictGet rest k

/-- The module-level dispatch table `FUNCTION_MAPPING` of the source file:
data type to TensorBoard `SummaryWriter` method name. -/
def FUNCTION_MAPPING : List (AnalyticsDataType × String) :=
  [(AnalyticsDataType.SCALAR, "add_scalar"),
   (AnalyticsDataType.TEXT, "add_text"),
   (AnalyticsDataType.IMAGE, "add_image"),
   (AnalyticsDataType.SCALARS, "add_scalars")]

/-- `os.path.join` on POSIX for two components: an absolute second component
replaces the first, otherwise the components are joined with a single
separator. -/
def osPathJoin (a b : String) : String :=
  if b.data.head? = some '/' then b
  else if a = "" then b
  else if a.data.getLast? = some '/' then a ++ b
  else a ++ "/" ++ b

/-- One externally visible action of the receiver: a call into one of the
wrapped SDKs or into the host logger.  `createWriter` records both the
`record_origin` under which the new `SummaryWriter` is cached and the
`log_dir` passed to its constructor; `tbCall` records the invoked writer
method name, the writer's log directory, the positional arguments
`(tag, value)` and the expanded kwargs when kwargs was a dict. -/
inductive Effect
  | makeDirs (path : String) (exist_ok : Bool)
  | setTrackingUri (uri : String)
  | setExperiment (name : String)
  | startRun
  | endRun
  | createWriter (origin : String) (logDir : String)
  | mlflowLogMetric (tag : String) (v : PyObj)
  | mlflowLogFigure (tag : String) (v : PyObj)
  | mlflowLogText (tag : String) (v : PyObj)
  | tbCall (method : String) (logDir : String) (tag : String) (v : PyObj)
      (kwargs : Option (List (String × PyObj)))
  | logDebug (msg : String)
  | logError (msg : String)
  | flushWriter (logDir : String)
  | closeWriter (logDir : String)
deriving DecidableEq, Repr

/-- Mutable state of the receiver after `initialize`: `self.writers_table`
(a dict from record origin to the cached writer, a writer being identified
by its log directory) and `self.root_log_dir`. -/
structure ReceiverState where
  writers_table : List (String × String)
  root_log_dir : String
deriving DecidableEq, Repr

/-- Printable name of a data type, standing in for Python's rendering of the
enum member inside the error message f-string. -/
def dtName : AnalyticsDataType → String
  | AnalyticsDataType.SCALAR => "SCALAR"
  | AnalyticsDataType.SCALARS => "SCALARS"
  | AnalyticsDataType.IMAGE => "IMAGE"
  | AnalyticsDataType.TEXT => "TEXT"
  | AnalyticsDataType.PARAMETER => "PARAMETER"
  | AnalyticsDataType.METRIC => "METRIC"
  | AnalyticsDataType.MODEL => "MODEL"

/-- The tag name built by the loop body of `save`:
`tag_name = f"{k}"` followed by `tag_name = record_origin + "_" + tag_name`. -/
def tagOf (record_origin k : String) : String :=
  record_origin ++ "_" ++ k

/-- The debug message logged for each entry (value and type rendering of the
source f-string abbreviated; only the count and placement of the debug log
matter to the spec). -/
def dbgMsg (record_origin k : String) : String :=
  "save tag " ++ tagOf record_origin k ++ " from " ++ record_origin

/-- The error message logged when the data type is not in `FUNCTION_MAPPING`. -/
def errMsg (dt : AnalyticsDataType) : String :=
  "The data_type " ++ dtName dt ++ " is not supported."

/-- The MLflow mirror part of the loop body: the `if/elif` chain over the
data type at lines 112-117 of the source. -/
def mlPart (dt : AnalyticsDataType) (tag : String) (v : PyObj) : List Effect :=
  if dt = AnalyticsDataType.SCALAR then [Effect.mlflowLogMetric tag v]
  else if dt = AnalyticsDataType.IMAGE then [Effect.mlflowLogFigure tag v]
  else if dt = AnalyticsDataType.TEXT then [Effect.mlflowLogText tag v]
  else []

/-- The kwargs the TensorBoard writer method receives: expanded when
`isinstance(analytic_data.kwargs, dict)`, absent otherwise. -/
def kwOpt : PyKwargs → Option (List (String × PyObj))
  | PyKwargs.dict entries => some entries
  | PyKwargs.nonDict _ => none

/-- The TensorBoard part of the loop body: lines 119-128 of the source.
A missing `FUNCTION_MAPPING` entry logs an error and `continue`s; otherwise
`getattr(writer, func_name)` is called with the tag, the value and the
kwargs (expanded only when kwargs is a dict). -/
def tbPart (writerDir : String) (dt : AnalyticsDataType) (kw : PyKwargs)
    (tag : String) (v : PyObj) : List Effect :=
  match dictGet FUNCTION_MAPPING dt with
  | none => [Effect.logError (errMsg dt)]
  | some func_name => [Effect.tbCall func_name writerDir tag v (kwOpt kw)]

/-- The effects of one iteration of the `for k, v in dxo.data.items()` loop
of `save` (lines 104-128): the debug log, then the MLflow mirror call (when
the type is SCALAR, IMAGE or TEXT), then the TensorBoard dispatch. -/
def saveEntry (writerDir record_origin : String) (dt : AnalyticsDataType)
    (kw : PyKwargs) (kv : String × PyObj) : List Effect :=
  Effect.logDebug (dbgMsg record_origin kv.1)
    :: mlPart dt (tagOf record_origin kv.1) kv.2
      ++ tbPart writerDir dt kw (tagOf record_origin kv.1) kv.2

/-- The log directory of the writer `save` uses for `record_origin`: the
cached writer when `writers_table` has one, else the fresh
`os.path.join(self.root_log_dir, record_origin)` (lines 97-100). -/
def writerDirFor (st : ReceiverState) (record_origin : String) : String :=
  match dictGet st.writers_table record_origin with
  | some d => d
  | none => osPathJoin st.root_log_dir record_origin

/-- `MLFlowAnalyticsReceiver.save` (lines 91-128): resolves or creates the
per-origin `SummaryWriter` (caching it in `writers_table`), then runs the
loop body over every `(k, v)` of the DXO data.  Returns the updated state
and the trace of SDK/logger calls, in program order. -/
def save (st : ReceiverState) (ev : AnalyticsEvent) (record_origin : String) :
    ReceiverState × List Effect :=
  let writerDir := writerDirFor st record_origin
  let entryEffs := (ev.data.map
    (saveEntry writerDir record_origin ev.data_type ev.kwargs)).flatten
  match dictGet st.writers_table record_origin with
  | some _ => (st, entryEffs)
  | none =>
      (ReceiverState.mk ((record_origin, writerDir) :: st.writers_table)
        st.root_log_dir,
       Effect.createWriter record_origin writerDir :: entryEffs)

/-- `MLFlowAnalyticsReceiver.initialize` (lines 68-89), embedding the
source method `initialize`: `run_dir` comes from the host workspace and
`azureml_mlflow_uri` from the Azure ML workspace lookup, both modelled as
inputs.  It computes `root_log_dir = os.path.join(run_dir, self.tb_folder)`,
creates it with `exist_ok=True`, points MLflow at the workspace tracking
URI, selects the experiment `"nvflare-experiment"` and starts a run.
`writers_table` is the empty dict from `__init__`. -/
def receiverInit (tb_folder run_dir azureml_mlflow_uri : String) :
    ReceiverState × List Effect :=
  let root_log_dir := osPathJoin run_dir tb_folder
  (ReceiverState.mk [] root_log_dir,
   [Effect.makeDirs root_log_dir true,
    Effect.setTrackingUri azureml_mlflow_uri,
    Effect.setExperiment "nvflare-experiment",
    Effect.startRun])

/-- `MLFlowAnalyticsReceiver.finalize` (lines 130-134): ends the MLflow run
and flushes and closes every cached writer. -/
def finalize (st : ReceiverState) : List Effect :=
  Effect.endRun ::
    (st.writers_table.map
      (fun p => [Effect.flushWriter p.2, Effect.closeWriter p.2])).flatten

/-- A sequence of `save` calls (one per received event, with its record
origin), threading the receiver state and concatenating the traces. -/
def runSaves (st : ReceiverState) (evs : List (AnalyticsEvent × String)) :
    ReceiverState × List Effect :=
  match evs with
  | [] => (st, [])
  | e :: rest =>
      let r := save st e.1 e.2
      let r2 := runSaves r.1 rest
      (r2.1, r.2 ++ r2.2)

/-- Whether `os.makedirs(path, exist_ok=ok)` raises `FileExistsError`, given
the set of directories that already exist: it raises exactly when the path
exists and `exist_ok` is false. -/
def makedirsRaises (existing : List String) (path : String) (ok : Bool) : Bool :=
  existing.contains path && !ok

/-- Global MLflow client state driven by the `mlflow.set_tracking_uri`,
`mlflow.set_experiment`, `mlflow.start_run` and `mlflow.end_run` effects. -/
structure MlflowState where
  tracking_uri : Option String
  experiment : Option String
  active_run : Bool
deriving DecidableEq, Repr

/-- Effect interpretation on the global MLflow state. -/
def applyEffect (m : MlflowState) : Effect → MlflowState
  | Effect.setTrackingUri u => MlflowState.mk (some u) m.experiment m.active_run
  | Effect.setExperiment e => MlflowState.mk m.tracking_uri (some e) m.active_run
  | Effect.startRun => MlflowState.mk m.tracking_uri m.experiment true
  | Effect.endRun => MlflowState.mk m.tracking_uri m.experiment false
  | _ => m

/-- Run a trace of effects against an MLflow state. -/
def applyEffects (m : MlflowState) (effs : List Effect) : MlflowState :=
  effs.foldl applyEffect m

/-- Recognises the MLflow logging mirror calls of `save`. -/
def isMlflowCall : Effect → Bool
  | Effect.mlflowLogMetric _ _ => true
  | Effect.mlflowLogFigure _ _ => true
  | Effect.mlflowLogText _ _ => true
  | _ => false

/-- Recognises TensorBoard writer method invocations. -/
def isTbCall : Effect → Bool
  | Effect.tbCall _ _ _ _ _ => true
  | _ => false

/-- Recognises debug-log effects. -/
def isDebugLog : Effect → Bool
  | Effect.logDebug _ => true
  | _ => false

/-- Recognises error-log effects. -/
def isErrorLog : Effect → Bool
  | Effect.logError _ => true
  | _ => false

/-- Recognises the creation of a `SummaryWriter` cached under `o`. -/
def isCreateFor (o : String) : Effect → Bool
  | Effect.createWriter o' _ => o' = o
  | _ => false

/-- Number of `SummaryWriter`s created for origin `o` in a trace. -/
def createsFor (o : String) (effs : List Effect) : Nat :=
  (effs.filter (isCreateFor o)).length

/-- A Python exception value raised by one of the decode helpers. -/
structure PyError where
  msg : String
deriving DecidableEq, Repr

/-- The host-supplied `Shareable` argument of `save`, as seen through the
third-party decoders of lines 92-93 (`from_shareable` and
`AnalyticsData.from_dxo` from nvflare): either it carries a DXO whose data
decodes to an analytics record, or the decoders raise (nvflare raises
`ValueError` on a shareable without a valid DXO / analytics record). -/
inductive Shareable
  | valid (ev : AnalyticsEvent)
  | invalid (err : String)
deriving DecidableEq, Repr

/-- The decode of lines 92-93: returns the analytics record carried by the
shareable or raises.  The decoders are third-party nvflare code; only their
raise-or-return contract matters to the receiver. -/
def from_shareable : Shareable → Except PyError AnalyticsEvent
  | Shareable.valid ev => Except.ok ev
  | Shareable.invalid err => Except.error (PyError.mk err)

/-- The full `MLFlowAnalyticsReceiver.save` method (lines 91-128) with its
exception channel: the method body has no try/except, so when the decode of
lines 92-93 raises, the exception propagates to the caller with no effect
emitted (nothing is logged); when the shareable decodes, the body is `save`
and returns normally. -/
def saveMethod (st : ReceiverState) (sh : Shareable)
    (record_origin : String) :
    Except PyError (ReceiverState × List Effect) :=
  match from_shareable sh with
  | Except.error e => Except.error e
  | Except.ok ev => Except.ok (save st ev record_origin)

/-! Helper lemmas about the embedding, shared by the claim theorems. -/

theorem string_append_cancel_left (s t u : String) (h : s ++ t = s ++ u) :
    t = u := by
  apply String.ext
  have hd := congrArg String.data h
  simpa [String.data_append] using hd

theorem osPathJoin_inj_of_rel (r p1 p2 : String)
    (h1 : p1.data.head? ≠ some '/') (h2 : p2.data.head? ≠ some '/')
    (hne : p1 ≠ p2) : osPathJoin r p1 ≠ osPathJoin r p2 := by
  unfold osPathJoin
  rw [if_neg h1, if_neg h2]
  by_cases hr : r = ""
  · simpa [hr] using hne
  · by_cases hs : r.data.getLast? = some '/' 
    · rw [if_neg hr, if_neg hr, if_pos hs, if_pos hs]
      intro h
      exact hne (string_append_cancel_left r p1 p2 h)
    · rw [if_neg hr, if_neg hr, if_neg hs, if_neg hs]
      intro h
      exact hne (string_append_cancel_left (r ++ "/") p1 p2 h)

theorem mem_saveEntry_inv (w o : String) (dt : AnalyticsDataType)
    (kw : PyKwargs) (kv : String × PyObj) (e : Effect)
    (h : e ∈ saveEntry w o dt kw kv) :
    e = Effect.logDebug (dbgMsg o kv.1) ∨
    (dt = AnalyticsDataType.SCALAR ∧
      e = Effect.mlflowLogMetric (tagOf o kv.1) kv.2) ∨
    (dt = AnalyticsDataType.IMAGE ∧
      e = Effect.mlflowLogFigure (tagOf o kv.1) kv.2) ∨
    (dt = AnalyticsDataType.TEXT ∧
      e = Effect.mlflowLogText (tagOf o kv.1) kv.2) ∨
    (dictGet FUNCTION_MAPPING dt = none ∧ e = Effect.logError (errMsg dt)) ∨
    (∃ m, dictGet FUNCTION_MAPPING dt = some m ∧
      e = Effect.tbCall m w (tagOf o kv.1) kv.2 (kwOpt kw)) := by
  cases dt <;>
    simp_all [saveEntry, mlPart, tbPart, dictGet, FUNCTION_MAPPING]

theorem save_effects (st : ReceiverState) (ev : AnalyticsEvent) (o : String) :
    (save st ev o).2 =
      (match dictGet st.writers_table o with
        | some _ => []
        | none => [Effect.createWriter o (writerDirFor st o)]) ++
      (ev.data.map
        (saveEntry (writerDirFor st o) o ev.data_type ev.kwargs)).flatten := by
  unfold save
  cases h : dictGet st.writers_table o <;> simp [h]

theorem mem_save_inv (st : ReceiverState) (ev : AnalyticsEvent) (o : String)
    (e : Effect) (h : e ∈ (save st ev o).2) :
    e = Effect.createWriter o (writerDirFor st o) ∨
    ∃ kv, kv ∈ ev.data ∧
      e ∈ saveEntry (writerDirFor st o) o ev.data_type ev.kwargs kv := by
  rw [save_effects] at h
  rcases List.mem_append.mp h with h1 | h2
  · left
    cases hc : dictGet st.writers_table o <;> simp [hc] at h1
    · exact h1
  · right
    rcases List.mem_flatten.mp h2 with ⟨l, hl, hel⟩
    rcases List.mem_map.mp hl with ⟨kv, hkv, rfl⟩
    exact ⟨kv, hkv, hel⟩

theorem mem_save_of_entry (st : ReceiverState) (ev : AnalyticsEvent)
    (o : String) (kv : String × PyObj) (hkv : kv ∈ ev.data) (e : Effect)
    (he : e ∈ saveEntry (writerDirFor st o) o ev.data_type ev.kwargs kv) :
    e ∈ (save st ev o).2 := by
  rw [save_effects]
  refine List.mem_append.mpr (Or.inr (List.mem_flatten.mpr ⟨_, List.mem_map.mpr ⟨kv, hkv, rfl⟩, he⟩))

theorem countP_flatten_map_const {α : Type} (p : Effect → Bool)
    (f : α → List Effect) (l : List α) (c : Nat)
    (hf : ∀ a ∈ l, (f a).countP p = c) :
    ((l.map f).flatten).countP p = l.length * c := by
  induction l with
  | nil => simp
  | cons a rest ih =>
      simp only [List.map_cons, List.flatten_cons, List.countP_append,
        List.length_cons]
      rw [hf a (List.mem_cons_self a rest),
        ih (fun b hb => hf b (List.mem_cons_of_mem a hb))]
      ring

theorem saveEntry_countP_debug (w o : String) (dt : AnalyticsDataType)
    (kw : PyKwargs) (kv : String × PyObj) :
    (saveEntry w o dt kw kv).countP isDebugLog = 1 := by
  cases dt <;> cases kw <;>
    simp [saveEntry, mlPart, tbPart, dictGet, FUNCTION_MAPPING, isDebugLog,
      List.countP_cons, List.countP_append]

theorem saveEntry_countP_error_unsupported (w o : String)
    (dt : AnalyticsDataType) (kw : PyKwargs) (kv : String × PyObj)
    (hdt : dictGet FUNCTION_MAPPING dt = none) :
    (saveEntry w o dt kw kv).countP isErrorLog = 1 := by
  cases dt <;> cases kw <;>
    simp_all [saveEntry, mlPart, tbPart, dictGet, FUNCTION_MAPPING, isErrorLog,
      List.countP_cons, List.countP_append]

theorem saveEntry_countP_create (w o o2 : String) (dt : AnalyticsDataType)
    (kw : PyKwargs) (kv : String × PyObj) :
    (saveEntry w o dt kw kv).countP (isCreateFor o2) = 0 := by
  cases dt <;> cases kw <;>
    simp [saveEntry, mlPart, tbPart, dictGet, FUNCTION_MAPPING, isCreateFor,
      List.countP_cons, List.countP_append]

theorem countP_save_entries (st : ReceiverState) (ev : AnalyticsEvent)
    (o : String) (p : Effect → Bool) (c : Nat)
    (hc : ∀ kv ∈ ev.data,
      (saveEntry (writerDirFor st o) o ev.data_type ev.kwargs kv).countP p = c)
    (hcreate : p (Effect.createWriter o (writerDirFor st o)) = false) :
    ((save st ev o).2).countP p = ev.data.length * c := by
  rw [save_effects, List.countP_append,
    countP_flatten_map_const p _ _ c hc]
  cases h : dictGet st.writers_table o <;>
    simp [List.countP_cons, hcreate]

theorem save_root (st : ReceiverState) (ev : AnalyticsEvent) (o : String) :
    (save st ev o).1.root_log_dir = st.root_log_dir := by
  unfold save
  cases h : dictGet st.writers_table o <;> simp [h]

theorem runSaves_root (st : ReceiverState)
    (evs : List (AnalyticsEvent × String)) :
    (runSaves st evs).1.root_log_dir = st.root_log_dir := by
  induction evs generalizing st with
  | nil => rfl
  | cons e rest ih =>
      simp only [runSaves]
      rw [ih, save_root]

/-- Invariant of the writer cache: every cached writer's log directory is
the join of the root log directory with its origin. -/
def tableOk (r : String) (t : List (String × String)) : Prop :=
  ∀ o d, dictGet t o = some d → d = osPathJoin r o

theorem save_table (st : ReceiverState) (ev : AnalyticsEvent) (o : String) :
    (save st ev o).1.writers_table =
      match dictGet st.writers_table o with
      | some _ => st.writers_table
      | none => (o, writerDirFor st o) :: st.writers_table := by
  unfold save
  cases h : dictGet st.writers_table o <;> simp [h]

theorem save_tableOk (st : ReceiverState) (ev : AnalyticsEvent) (o : String)
    (hok : tableOk st.root_log_dir st.writers_table) :
    tableOk st.root_log_dir (save st ev o).1.writers_table := by
  rw [save_table]
  cases h : dictGet st.writers_table o with
  | some d => exact hok
  | none =>
      intro o' d' hd'
      simp only [dictGet] at hd'
      by_cases heq : o = o'
      · subst heq
        simp at hd'
        subst hd'
        unfold writerDirFor
        rw [h]
      · simp only [heq, if_false] at hd'
        exact hok o' d' hd'

theorem save_lookup_mono (st : ReceiverState) (ev : AnalyticsEvent)
    (o o' : String) (d : String)
    (h : dictGet st.writers_table o = some d) :
    dictGet (save st ev o').1.writers_table o = some d := by
  rw [save_table]
  cases hc : dictGet st.writers_table o' with
  | some _ => exact h
  | none =>
      by_cases heq : o' = o
      · subst heq
        rw [h] at hc
        cases hc
      · simpa [dictGet, heq] using h

theorem save_lookup_self (st : ReceiverState) (ev : AnalyticsEvent)
    (o : String) :
    dictGet (save st ev o).1.writers_table o = some (writerDirFor st o) := by
  rw [save_table]
  cases hc : dictGet st.writers_table o with
  | some d =>
      unfold writerDirFor
      rw [hc]
  | none => simp [dictGet]

theorem runSaves_lookup_mono (st : ReceiverState)
    (evs : List (AnalyticsEvent × String)) (o d : String)
    (h : dictGet st.writers_table o = some d) :
    dictGet (runSaves st evs).1.writers_table o = some d := by
  induction evs generalizing st with
  | nil => exact h
  | cons e rest ih =>
      simp only [runSaves]
      exact ih _ (save_lookup_mono st e.1 o e.2 d h)

theorem runSaves_tableOk (st : ReceiverState)
    (evs : List (AnalyticsEvent × String))
    (hok : tableOk st.root_log_dir st.writers_table) :
    tableOk st.root_log_dir (runSaves st evs).1.writers_table := by
  induction evs generalizing st with
  | nil => exact hok
  | cons e rest ih =>
      simp only [runSaves]
      have h1 := save_tableOk st e.1 e.2 hok
      rw [← save_root st e.1 e.2] at h1 ⊢
      exact ih _ h1

theorem runSaves_lookup_of_mem (st : ReceiverState)
    (evs : List (AnalyticsEvent × String)) (ev : AnalyticsEvent) (o : String)
    (hmem : (ev, o) ∈ evs) :
    ∃ d, dictGet (runSaves st evs).1.writers_table o = some d := by
  induction evs generalizing st with
  | nil => cases hmem
  | cons e rest ih =>
      simp only [runSaves]
      rcases List.mem_cons.mp hmem with heq | hrest
      · subst heq
        exact ⟨writerDirFor st o,
          runSaves_lookup_mono _ rest o _ (save_lookup_self st ev o)⟩
      · exact ih _ hrest

theorem createsFor_eq_countP (o : String) (effs : List Effect) :
    createsFor o effs = effs.countP (isCreateFor o) := by
  rw [createsFor, List.countP_eq_length_filter]

theorem createsFor_append (o : String) (a b : List Effect) :
    createsFor o (a ++ b) = createsFor o a + createsFor o b := by
  simp [createsFor, List.filter_append]

theorem createsFor_save (st : ReceiverState) (ev : AnalyticsEvent)
    (o' o : String) :
    createsFor o (save st ev o').2 =
      match dictGet st.writers_table o' with
      | some _ => 0
      | none => if o' = o then 1 else 0 := by
  rw [createsFor_eq_countP, save_effects, List.countP_append,
    countP_flatten_map_const (isCreateFor o) _ _ 0
      (fun kv _ => saveEntry_countP_create _ _ _ _ _ _)]
  cases hc : dictGet st.writers_table o' <;>
    simp [isCreateFor, List.countP_cons]

theorem save_state_cached (st : ReceiverState) (ev : AnalyticsEvent)
    (o d : String) (h : dictGet st.writers_table o = some d) :
    (save st ev o).1 = st := by
  unfold save
  rw [h]

theorem createsFor_runSaves_cached (st : ReceiverState)
    (evs : List (AnalyticsEvent × String)) (o d : String)
    (h : dictGet st.writers_table o = some d) :
    createsFor o (runSaves st evs).2 = 0 := by
  induction evs generalizing st with
  | nil => simp [runSaves, createsFor]
  | cons e rest ih =>
      simp only [runSaves]
      rw [createsFor_append, createsFor_save]
      have hrest := ih (save st e.1 e.2).1 (save_lookup_mono st e.1 o e.2 d h)
      cases hc : dictGet st.writers_table e.2 with
      | some _ => simpa using hrest
      | none =>
          by_cases heq : e.2 = o
          · subst heq
            rw [h] at hc
            cases hc
          · simpa [heq] using hrest

theorem createsFor_runSaves_le_one (st : ReceiverState)
    (evs : List (AnalyticsEvent × String)) (o : String) :
    createsFor o (runSaves st evs).2 ≤ 1 := by
  induction evs generalizing st with
  | nil => simp [runSaves, createsFor]
  | cons e rest ih =>
      simp only [runSaves]
      rw [createsFor_append, createsFor_save]
      cases hc : dictGet st.writers_table e.2 with
      | some _ => simpa using ih (save st e.1 e.2).1
      | none =>
          by_cases heq : e.2 = o
          · subst heq
            have h2 := save_lookup_self st e.1 e.2
            rw [createsFor_runSaves_cached _ rest _ _ h2]
            simp
          · simpa [heq] using ih (save st e.1 e.2).1

theorem saveEntry_filter_mlflow (w o : String) (dt : AnalyticsDataType)
    (kw : PyKwargs) (kv : String × PyObj) :
    (saveEntry w o dt kw kv).filter isMlflowCall =
      mlPart dt (tagOf o kv.1) kv.2 := by
  cases dt <;> cases kw <;>
    simp [saveEntry, mlPart, tbPart, dictGet, FUNCTION_MAPPING, isMlflowCall,
      List.filter_append]

theorem filter_flatten_map {α : Type} (p : Effect → Bool)
    (f : α → List Effect) (l : List α) :
    ((l.map f).flatten).filter p = (l.map (fun a => (f a).filter p)).flatten := by
  induction l with
  | nil => rfl
  | cons a rest ih => simp [List.filter_append, ih]

theorem save_filter_mlflow (st : ReceiverState) (ev : AnalyticsEvent)
    (o : String) :
    ((save st ev o).2).filter isMlflowCall =
      (ev.data.map
        (fun kv => mlPart ev.data_type (tagOf o kv.1) kv.2)).flatten := by
  rw [save_effects, List.filter_append, filter_flatten_map]
  have hmap : ev.data.map
      (fun kv => (saveEntry (writerDirFor st o) o ev.data_type ev.kwargs
        kv).filter isMlflowCall) =
      ev.data.map (fun kv => mlPart ev.data_type (tagOf o kv.1) kv.2) :=
    List.map_congr_left (fun kv _ => saveEntry_filter_mlflow _ _ _ _ kv)
  rw [hmap]
  cases hc : dictGet st.writers_table o <;> simp [isMlflowCall]

theorem save_mlflow_sound (st : ReceiverState) (ev : AnalyticsEvent)
    (o t : String) (w : PyObj)
    (h : Effect.mlflowLogMetric t w ∈ (save st ev o).2 ∨
         Effect.mlflowLogFigure t w ∈ (save st ev o).2 ∨
         Effect.mlflowLogText t w ∈ (save st ev o).2) :
    ∃ k, (k, w) ∈ ev.data ∧ t = tagOf o k := by
  have main : ∀ e, e ∈ (save st ev o).2 →
      (e = Effect.mlflowLogMetric t w ∨ e = Effect.mlflowLogFigure t w ∨
        e = Effect.mlflowLogText t w) →
      ∃ k, (k, w) ∈ ev.data ∧ t = tagOf o k := by
    intro e he hshape
    rcases mem_save_inv _ _ _ _ he with hc | ⟨kv, hkv, hent⟩
    · rcases hshape with h1 | h1 | h1 <;> rw [h1] at hc <;> simp at hc
    · rcases mem_saveEntry_inv _ _ _ _ _ _ hent with
        h1 | ⟨_, h2⟩ | ⟨_, h2⟩ | ⟨_, h2⟩ | ⟨_, h2⟩ | ⟨m, _, h2⟩
      · rcases hshape with h3 | h3 | h3 <;> rw [h3] at h1 <;> simp at h1
      · rcases hshape with h3 | h3 | h3 <;> rw [h3] at h2 <;> simp at h2 <;>
          exact ⟨kv.1, by rw [h2.2]; simpa using hkv, h2.1⟩
      · rcases hshape with h3 | h3 | h3 <;> rw [h3] at h2 <;> simp at h2 <;>
          exact ⟨kv.1, by rw [h2.2]; simpa using hkv, h2.1⟩
      · rcases hshape with h3 | h3 | h3 <;> rw [h3] at h2 <;> simp at h2 <;>
          exact ⟨kv.1, by rw [h2.2]; simpa using hkv, h2.1⟩
      · rcases hshape with h3 | h3 | h3 <;> rw [h3] at h2 <;> simp at h2
      · rcases hshape with h3 | h3 | h3 <;> rw [h3] at h2 <;> simp at h2
  rcases h with h | h | h
  · exact main _ h (Or.inl rfl)
  · exact main _ h (Or.inr (Or.inl rfl))
  · exact main _ h (Or.inr (Or.inr rfl))

theorem save_tb_sound (st : ReceiverState) (ev : AnalyticsEvent)
    (o m d t : String) (w : PyObj) (kw : Option (List (String × PyObj)))
    (h : Effect.tbCall m d t w kw ∈ (save st ev o).2) :
    dictGet FUNCTION_MAPPING ev.data_type = some m ∧
    d = writerDirFor st o ∧
    (∃ k, (k, w) ∈ ev.data ∧ t = tagOf o k) ∧
    kw = kwOpt ev.kwargs := by
  rcases mem_save_inv _ _ _ _ h with hc | ⟨kv, hkv, hent⟩
  · simp at hc
  · rcases mem_saveEntry_inv _ _ _ _ _ _ hent with
      h1 | ⟨_, h2⟩ | ⟨_, h2⟩ | ⟨_, h2⟩ | ⟨_, h2⟩ | ⟨m2, hm2, h2⟩
    · simp at h1
    · simp at h2
    · simp at h2
    · simp at h2
    · simp at h2
    · simp at h2
      obtain ⟨hm, hd, ht, hw, hkw⟩ := h2
      subst hm
      exact ⟨hm2, hd, ⟨kv.1, by rw [hw]; simpa using hkv, ht⟩, hkw⟩

theorem mlPart_unsupported (dt : AnalyticsDataType)
    (h : dictGet FUNCTION_MAPPING dt = none) (tag : String) (v : PyObj) :
    mlPart dt tag v = [] := by
  cases dt <;> simp_all [dictGet, FUNCTION_MAPPING, mlPart]

theorem save_filter_mlflow_unsupported (st : ReceiverState)
    (ev : AnalyticsEvent) (o : String)
    (h : dictGet FUNCTION_MAPPING ev.data_type = none) :
    ((save st ev o).2).filter isMlflowCall = [] := by
  have hmap : ev.data.map
      (fun kv => mlPart ev.data_type (tagOf o kv.1) kv.2) =
      ev.data.map (fun _ => ([] : List Effect)) :=
    List.map_congr_left (fun kv _ => mlPart_unsupported _ h _ _)
  rw [save_filter_mlflow, hmap]
  simp

theorem no_mlflow_of_filter_nil (effs : List Effect) (e : Effect)
    (h : effs.filter isMlflowCall = []) (he : e ∈ effs) :
    isMlflowCall e = false := by
  by_contra hb
  have hmem : e ∈ effs.filter isMlflowCall :=
    List.mem_filter.mpr ⟨he, by simpa using hb⟩
  rw [h] at hmem
  cases hmem

theorem save_no_tb_unsupported (st : ReceiverState) (ev : AnalyticsEvent)
    (o : String) (h : dictGet FUNCTION_MAPPING ev.data_type = none)
    (m d t : String) (w : PyObj) (kw : Option (List (String × PyObj))) :
    Effect.tbCall m d t w kw ∉ (save st ev o).2 := by
  intro hmem
  have hsome := (save_tb_sound st ev o m d t w kw hmem).1
  rw [h] at hsome
  cases hsome

theorem saveEntry_countP_error_supported (w o : String)
    (dt : AnalyticsDataType) (m : String) (kw : PyKwargs) (kv : String × PyObj)
    (hdt : dictGet FUNCTION_MAPPING dt = some m) :
    (saveEntry w o dt kw kv).countP isErrorLog = 0 := by
  cases dt <;> cases kw <;>
    simp_all [saveEntry, mlPart, tbPart, dictGet, FUNCTION_MAPPING, isErrorLog,
      List.countP_cons, List.countP_append]

/-- C3 counterexample: `save` does not return normally for every input
shareable.  The method has no try/except: on a shareable carrying no valid
DXO the decode of line 92 raises and the exception propagates to the
caller; no effect is emitted, so this error is neither logged nor
swallowed. -/
theorem C3_counterexample :
    saveMethod (ReceiverState.mk [] "/r/tb2")
        (Shareable.invalid "invalid DXO") "site-9" =
      Except.error (PyError.mk "invalid DXO") := rfl

/-- C3 (amended): the only error `save` itself handles is an unsupported
data type.  Exceptions raised by the decode of lines 92-93 propagate
uncaught (there is no try/except), with nothing logged; on a shareable that
decodes, `save` returns normally: every key/value entry emits its debug
log, and when the data type is unsupported each entry is logged as an
error and skipped (no TensorBoard and no MLflow call) while processing
continues with the remaining entries — with no recovery or retry
behaviour. -/
theorem C3_unsupported_logged_exceptions_propagate (st : ReceiverState)
    (sh : Shareable) (o : String) :
    (∀ err, from_shareable sh = Except.error err →
      saveMethod st sh o = Except.error err) ∧
    (∀ ev, from_shareable sh = Except.ok ev →
      saveMethod st sh o = Except.ok (save st ev o) ∧
      ((save st ev o).2).countP isDebugLog = ev.data.length ∧
      (dictGet FUNCTION_MAPPING ev.data_type = none →
        ((save st ev o).2).countP isErrorLog = ev.data.length ∧
        ∀ e ∈ (save st ev o).2,
          isTbCall e = false ∧ isMlflowCall e = false)) := by
  constructor
  · intro err herr
    unfold saveMethod
    rw [herr]
  · intro ev hok
    refine ⟨?_, ?_, ?_⟩
    · unfold saveMethod
      rw [hok]
    · have h := countP_save_entries st ev o isDebugLog 1
        (fun kv _ => saveEntry_countP_debug _ _ _ _ _) rfl
      simpa using h
    · intro hdt
      refine ⟨?_, ?_⟩
      · have h := countP_save_entries st ev o isErrorLog 1
          (fun kv _ => saveEntry_countP_error_unsupported _ _ _ _ _ hdt) rfl
        simpa using h
      · intro e he
        constructor
        · cases e
          case tbCall m d t w kw =>
            exact absurd he (save_no_tb_unsupported st ev o hdt m d t w kw)
          all_goals rfl
        · exact no_mlflow_of_filter_nil _ e
            (save_filter_mlflow_unsupported st ev o hdt) he

/-- Witness for the amended C3 at a concrete input: a decodable shareable
of the unsupported type `METRIC` with two entries returns normally with
exactly two error logs. -/
theorem C3_unsupported_logged_exceptions_propagate_witness :
    ((save (ReceiverState.mk [] "/ws/run_1/tb_events")
      (AnalyticsEvent.mk AnalyticsDataType.METRIC
        [("a", PyObj.mk 1), ("b", PyObj.mk 2)]
        (PyKwargs.nonDict (PyObj.mk 0))) "site-1").2).countP isErrorLog = 2 :=
  (((C3_unsupported_logged_exceptions_propagate
      (ReceiverState.mk [] "/ws/run_1/tb_events")
      (Shareable.valid (AnalyticsEvent.mk AnalyticsDataType.METRIC
        [("a", PyObj.mk 1), ("b", PyObj.mk 2)]
        (PyKwargs.nonDict (PyObj.mk 0)))) "site-1").2
      (AnalyticsEvent.mk AnalyticsDataType.METRIC
        [("a", PyObj.mk 1), ("b", PyObj.mk 2)]
        (PyKwargs.nonDict (PyObj.mk 0))) rfl).2.2 rfl).1

/-- C5: dispatch is a pure table lookup.  The four concrete bindings of
`FUNCTION_MAPPING` are as listed; every TensorBoard method invoked by `save`
is named exactly by the `FUNCTION_MAPPING` entry of the event's data type;
when the data type is a key, the named method is invoked for each entry;
and when it is not a key, no TensorBoard method is invoked at all. -/
theorem C5_dispatch_pure_lookup (st : ReceiverState) (ev : AnalyticsEvent)
    (o : String) :
    (dictGet FUNCTION_MAPPING AnalyticsDataType.SCALAR = some "add_scalar" ∧
     dictGet FUNCTION_MAPPING AnalyticsDataType.TEXT = some "add_text" ∧
     dictGet FUNCTION_MAPPING AnalyticsDataType.IMAGE = some "add_image" ∧
     dictGet FUNCTION_MAPPING AnalyticsDataType.SCALARS = some "add_scalars") ∧
    (∀ m d t w kw, Effect.tbCall m d t w kw ∈ (save st ev o).2 →
      dictGet FUNCTION_MAPPING ev.data_type = some m) ∧
    (∀ k v, (k, v) ∈ ev.data → ∀ m,
      dictGet FUNCTION_MAPPING ev.data_type = some m →
      Effect.tbCall m (writerDirFor st o) (tagOf o k) v (kwOpt ev.kwargs) ∈
        (save st ev o).2) ∧
    (dictGet FUNCTION_MAPPING ev.data_type = none →
      ∀ m d t w kw, Effect.tbCall m d t w kw ∉ (save st ev o).2) := by
  refine ⟨⟨rfl, rfl, rfl, rfl⟩, ?_, ?_, ?_⟩
  · intro m d t w kw hmem
    exact (save_tb_sound st ev o m d t w kw hmem).1
  · intro k v hkv m hm
    apply mem_save_of_entry st ev o (k, v) hkv
    simp [saveEntry, tbPart, hm]
  · intro hdt m d t w kw
    exact save_no_tb_unsupported st ev o hdt m d t w kw

/-- Witness for C5 at a concrete input: a `SCALARS` event dispatches to the
writer method `add_scalars` named by the table. -/
theorem C5_dispatch_pure_lookup_witness :
    Effect.tbCall "add_scalars"
      (writerDirFor (ReceiverState.mk [] "/r/tb") "s")
      (tagOf "s" "loss") (PyObj.mk 3)
      (kwOpt (PyKwargs.nonDict (PyObj.mk 0))) ∈
      (save (ReceiverState.mk [] "/r/tb")
        (AnalyticsEvent.mk AnalyticsDataType.SCALARS [("loss", PyObj.mk 3)]
          (PyKwargs.nonDict (PyObj.mk 0))) "s").2 :=
  (C5_dispatch_pure_lookup (ReceiverState.mk [] "/r/tb")
      (AnalyticsEvent.mk AnalyticsDataType.SCALARS [("loss", PyObj.mk 3)]
        (PyKwargs.nonDict (PyObj.mk 0))) "s").2.2.1 "loss" (PyObj.mk 3)
    (by decide) "add_scalars" rfl

/-- C7: `initialize` (embedded as `receiverInit`) emits, in order, the
creation of `join(run_dir, tb_folder)` with `exist_ok=True` (which cannot
raise even when the directory already exists), the tracking-URI assignment
to the Azure ML workspace URI, the selection of the experiment
`"nvflare-experiment"`, and the start of an MLflow run; it leaves
`root_log_dir = join(run_dir, tb_folder)` with an empty writer table, and
running its trace against an idle MLflow client leaves a state with the
workspace URI, the experiment and an active run for subsequent `save`
calls to mirror into. -/
theorem C7_receiverInit_behaviour (tb_folder run_dir uri : String)
    (existing : List String) :
    (receiverInit tb_folder run_dir uri).2 =
      [Effect.makeDirs (osPathJoin run_dir tb_folder) true,
       Effect.setTrackingUri uri,
       Effect.setExperiment "nvflare-experiment",
       Effect.startRun] ∧
    (receiverInit tb_folder run_dir uri).1 =
      ReceiverState.mk [] (osPathJoin run_dir tb_folder) ∧
    makedirsRaises existing (osPathJoin run_dir tb_folder) true = false ∧
    applyEffects (MlflowState.mk none none false)
      (receiverInit tb_folder run_dir uri).2 =
      MlflowState.mk (some uri) (some "nvflare-experiment") true := by
  refine ⟨rfl, rfl, ?_, rfl⟩
  simp [makedirsRaises]

theorem writerDirFor_of_tableOk (st : ReceiverState) (p : String)
    (hok : tableOk st.root_log_dir st.writers_table) :
    writerDirFor st p = osPathJoin st.root_log_dir p := by
  unfold writerDirFor
  cases h : dictGet st.writers_table p with
  | some d => exact hok p d h
  | none => rfl

theorem tableOk_nil (r : String) : tableOk r [] := by
  intro o d h
  simp [dictGet] at h

theorem save_filter_mlflow_scalars (st : ReceiverState) (ev : AnalyticsEvent)
    (o : String) (hdt : ev.data_type = AnalyticsDataType.SCALARS) :
    ((save st ev o).2).filter isMlflowCall = [] := by
  have hmap : ev.data.map
      (fun kv => mlPart ev.data_type (tagOf o kv.1) kv.2) =
      ev.data.map (fun _ => ([] : List Effect)) :=
    List.map_congr_left (fun kv _ => by rw [hdt]; simp [mlPart])
  rw [save_filter_mlflow, hmap]
  simp

/-- C9: even when the event's data type is unsupported, `save` still creates
and caches a `SummaryWriter` for the record origin before the type check:
the very first effect of the trace is the writer creation with the per-peer
log directory, the `writers_table` entry exists afterwards, and yet nothing
was written for the event (no TensorBoard and no MLflow call). -/
theorem C9_writer_cached_despite_unsupported (st : ReceiverState)
    (ev : AnalyticsEvent) (o : String)
    (hnew : dictGet st.writers_table o = none)
    (hdt : dictGet FUNCTION_MAPPING ev.data_type = none) :
    ((save st ev o).2).head? =
      some (Effect.createWriter o (osPathJoin st.root_log_dir o)) ∧
    dictGet (save st ev o).1.writers_table o =
      some (osPathJoin st.root_log_dir o) ∧
    ∀ e ∈ (save st ev o).2, isTbCall e = false ∧ isMlflowCall e = false := by
  have hw : writerDirFor st o = osPathJoin st.root_log_dir o := by
    unfold writerDirFor
    rw [hnew]
  refine ⟨?_, ?_, ?_⟩
  · rw [save_effects]
    simp [hnew, hw]
  · rw [save_lookup_self st ev o, hw]
  · intro e he
    constructor
    · cases e
      case tbCall m d t w kw =>
        exact absurd he (save_no_tb_unsupported st ev o hdt m d t w kw)
      all_goals rfl
    · exact no_mlflow_of_filter_nil _ e
        (save_filter_mlflow_unsupported st ev o hdt) he

/-- Witness for C9 at a concrete input: a `MODEL` event from a fresh peer
still creates the peer's writer as the first effect. -/
theorem C9_writer_cached_despite_unsupported_witness :
    ((save (ReceiverState.mk [] "/r/tb")
      (AnalyticsEvent.mk AnalyticsDataType.MODEL [("m", PyObj.mk 5)]
        (PyKwargs.nonDict (PyObj.mk 0))) "peer").2).head? =
      some (Effect.createWriter "peer" (osPathJoin "/r/tb" "peer")) :=
  (C9_writer_cached_despite_unsupported (ReceiverState.mk [] "/r/tb")
      (AnalyticsEvent.mk AnalyticsDataType.MODEL [("m", PyObj.mk 5)]
        (PyKwargs.nonDict (PyObj.mk 0))) "peer" rfl rfl).1

/-- C10: event kwargs are forwarded only to the TensorBoard writer and only
when they are a dict: every TensorBoard call of the trace carries exactly
`kwOpt` of the event's kwargs (the expanded dict entries when kwargs is a
dict, nothing otherwise), while the MLflow mirror calls of the trace are
unchanged under any replacement of the event's kwargs. -/
theorem C10_kwargs_only_to_tensorboard (st : ReceiverState)
    (ev : AnalyticsEvent) (o : String) :
    (∀ m d t w kw, Effect.tbCall m d t w kw ∈ (save st ev o).2 →
      kw = kwOpt ev.kwargs) ∧
    (∀ entries, ev.kwargs = PyKwargs.dict entries →
      kwOpt ev.kwargs = some entries) ∧
    (∀ obj, ev.kwargs = PyKwargs.nonDict obj → kwOpt ev.kwargs = none) ∧
    (∀ kw2, ((save st (AnalyticsEvent.mk ev.data_type ev.data kw2) o).2).filter
        isMlflowCall = ((save st ev o).2).filter isMlflowCall) := by
  refine ⟨?_, ?_, ?_, ?_⟩
  · intro m d t w kw hmem
    exact (save_tb_sound st ev o m d t w kw hmem).2.2.2
  · intro entries he
    rw [he]
    rfl
  · intro obj he
    rw [he]
    rfl
  · intro kw2
    rw [save_filter_mlflow, save_filter_mlflow]

/-- Witness for C10 at a concrete input: the TensorBoard call of a scalar
event whose kwargs is a dict carries exactly those dict entries. -/
theorem C10_kwargs_only_to_tensorboard_witness :
    (some [("step", PyObj.mk 4)] : Option (List (String × PyObj))) =
      kwOpt (PyKwargs.dict [("step", PyObj.mk 4)]) :=
  (C10_kwargs_only_to_tensorboard (ReceiverState.mk [] "/r/tb")
      (AnalyticsEvent.mk AnalyticsDataType.SCALAR [("a", PyObj.mk 1)]
        (PyKwargs.dict [("step", PyObj.mk 4)])) "s").1
    "add_scalar" "/r/tb/s" "s_a" (PyObj.mk 1) (some [("step", PyObj.mk 4)])
    (by decide)

/-- C1 counterexample: for the scalar entry `("accuracy", 7)` from origin
`"site-1"`, the claim as stated says the MLflow and TensorBoard calls carry
the tag `"accuracy"`; the code instead tags the calls
`"site-1_accuracy"`, so no call with the bare key as tag exists in the
trace. -/
theorem C1_counterexample :
    Effect.mlflowLogMetric "site-1_accuracy" (PyObj.mk 7) ∈
      (save (ReceiverState.mk [] "/ws/run_1/tb_events")
        (AnalyticsEvent.mk AnalyticsDataType.SCALAR
          [("accuracy", PyObj.mk 7)] (PyKwargs.nonDict (PyObj.mk 0)))
        "site-1").2 ∧
    Effect.mlflowLogMetric "accuracy" (PyObj.mk 7) ∉
      (save (ReceiverState.mk [] "/ws/run_1/tb_events")
        (AnalyticsEvent.mk AnalyticsDataType.SCALAR
          [("accuracy", PyObj.mk 7)] (PyKwargs.nonDict (PyObj.mk 0)))
        "site-1").2 ∧
    Effect.tbCall "add_scalar" "/ws/run_1/tb_events/site-1" "accuracy"
        (PyObj.mk 7) none ∉
      (save (ReceiverState.mk [] "/ws/run_1/tb_events")
        (AnalyticsEvent.mk AnalyticsDataType.SCALAR
          [("accuracy", PyObj.mk 7)] (PyKwargs.nonDict (PyObj.mk 0)))
        "site-1").2 := by
  decide

/-- C1 (amended): for every entry `(k, v)` of an event with a supported
data type, the value is forwarded verbatim but the tag is
`record_origin ++ "_" ++ k` (not the bare key `k`): the matching MLflow
call and the dispatched TensorBoard call with that tag and value are in the
trace, and conversely every MLflow or TensorBoard logging call in the trace
carries the verbatim value of some entry under its origin-prefixed tag. -/
theorem C1_args_forwarded (st : ReceiverState) (ev : AnalyticsEvent)
    (o k : String) (v : PyObj) (hkv : (k, v) ∈ ev.data) :
    (ev.data_type = AnalyticsDataType.SCALAR →
      Effect.mlflowLogMetric (tagOf o k) v ∈ (save st ev o).2) ∧
    (ev.data_type = AnalyticsDataType.IMAGE →
      Effect.mlflowLogFigure (tagOf o k) v ∈ (save st ev o).2) ∧
    (ev.data_type = AnalyticsDataType.TEXT →
      Effect.mlflowLogText (tagOf o k) v ∈ (save st ev o).2) ∧
    (∀ m, dictGet FUNCTION_MAPPING ev.data_type = some m →
      Effect.tbCall m (writerDirFor st o) (tagOf o k) v (kwOpt ev.kwargs) ∈
        (save st ev o).2) ∧
    (∀ t w, (Effect.mlflowLogMetric t w ∈ (save st ev o).2 ∨
             Effect.mlflowLogFigure t w ∈ (save st ev o).2 ∨
             Effect.mlflowLogText t w ∈ (save st ev o).2) →
      ∃ k2, (k2, w) ∈ ev.data ∧ t = tagOf o k2) ∧
    (∀ m d t w kw, Effect.tbCall m d t w kw ∈ (save st ev o).2 →
      ∃ k2, (k2, w) ∈ ev.data ∧ t = tagOf o k2) := by
  refine ⟨?_, ?_, ?_, ?_, ?_, ?_⟩
  · intro hdt
    apply mem_save_of_entry st ev o (k, v) hkv
    rw [hdt]
    simp [saveEntry, mlPart]
  · intro hdt
    apply mem_save_of_entry st ev o (k, v) hkv
    rw [hdt]
    simp [saveEntry, mlPart]
  · intro hdt
    apply mem_save_of_entry st ev o (k, v) hkv
    rw [hdt]
    simp [saveEntry, mlPart]
  · intro m hm
    apply mem_save_of_entry st ev o (k, v) hkv
    simp [saveEntry, tbPart, hm]
  · intro t w hsh
    exact save_mlflow_sound st ev o t w hsh
  · intro m d t w kw hmem
    exact (save_tb_sound st ev o m d t w kw hmem).2.2.1

/-- Witness for the amended C1 at a concrete input: the scalar entry
`("accuracy", 7)` from `"site-1"` is mirrored to MLflow under the tag
`tagOf "site-1" "accuracy" = "site-1_accuracy"` with the verbatim value. -/
theorem C1_args_forwarded_witness :
    Effect.mlflowLogMetric (tagOf "site-1" "accuracy") (PyObj.mk 7) ∈
      (save (ReceiverState.mk [] "/ws/run_1/tb_events")
        (AnalyticsEvent.mk AnalyticsDataType.SCALAR
          [("accuracy", PyObj.mk 7)] (PyKwargs.nonDict (PyObj.mk 0)))
        "site-1").2 :=
  (C1_args_forwarded (ReceiverState.mk [] "/ws/run_1/tb_events")
      (AnalyticsEvent.mk AnalyticsDataType.SCALAR
        [("accuracy", PyObj.mk 7)] (PyKwargs.nonDict (PyObj.mk 0)))
      "site-1" "accuracy" (PyObj.mk 7) (by decide)).1 rfl

/-- C2 counterexample: a `SCALARS` event is handled by the receiver (its
entry is written to TensorBoard via `add_scalars`), yet its trace contains
no MLflow logging call at all, so such events are not mirrored to MLflow. -/
theorem C2_counterexample :
    Effect.tbCall "add_scalars" "/r/tb/peer" "peer_losses" (PyObj.mk 9)
        none ∈
      (save (ReceiverState.mk [] "/r/tb")
        (AnalyticsEvent.mk AnalyticsDataType.SCALARS
          [("losses", PyObj.mk 9)] (PyKwargs.nonDict (PyObj.mk 0)))
        "peer").2 ∧
    ((save (ReceiverState.mk [] "/r/tb")
        (AnalyticsEvent.mk AnalyticsDataType.SCALARS
          [("losses", PyObj.mk 9)] (PyKwargs.nonDict (PyObj.mk 0)))
        "peer").2).countP isMlflowCall = 0 := by
  decide

/-- C2 (amended): entries of events of type SCALAR, TEXT and IMAGE are both
written to the per-peer TensorBoard log and mirrored to MLflow (log_metric,
log_text, log_figure respectively), but entries of the also-handled type
SCALARS receive only the TensorBoard write (`add_scalars`) and no MLflow
mirror call exists in the trace. -/
theorem C2_tb_and_mlflow (st : ReceiverState) (ev : AnalyticsEvent)
    (o k : String) (v : PyObj) (hkv : (k, v) ∈ ev.data) :
    (ev.data_type = AnalyticsDataType.SCALAR →
      Effect.mlflowLogMetric (tagOf o k) v ∈ (save st ev o).2 ∧
      Effect.tbCall "add_scalar" (writerDirFor st o) (tagOf o k) v
        (kwOpt ev.kwargs) ∈ (save st ev o).2) ∧
    (ev.data_type = AnalyticsDataType.TEXT →
      Effect.mlflowLogText (tagOf o k) v ∈ (save st ev o).2 ∧
      Effect.tbCall "add_text" (writerDirFor st o) (tagOf o k) v
        (kwOpt ev.kwargs) ∈ (save st ev o).2) ∧
    (ev.data_type = AnalyticsDataType.IMAGE →
      Effect.mlflowLogFigure (tagOf o k) v ∈ (save st ev o).2 ∧
      Effect.tbCall "add_image" (writerDirFor st o) (tagOf o k) v
        (kwOpt ev.kwargs) ∈ (save st ev o).2) ∧
    (ev.data_type = AnalyticsDataType.SCALARS →
      Effect.tbCall "add_scalars" (writerDirFor st o) (tagOf o k) v
        (kwOpt ev.kwargs) ∈ (save st ev o).2 ∧
      ((save st ev o).2).filter isMlflowCall = []) := by
  refine ⟨?_, ?_, ?_, ?_⟩ <;> intro hdt
  · constructor
    · apply mem_save_of_entry st ev o (k, v) hkv
      rw [hdt]
      simp [saveEntry, mlPart]
    · apply mem_save_of_entry st ev o (k, v) hkv
      rw [hdt]
      simp [saveEntry, tbPart, mlPart, dictGet, FUNCTION_MAPPING]
  · constructor
    · apply mem_save_of_entry st ev o (k, v) hkv
      rw [hdt]
      simp [saveEntry, mlPart]
    · apply mem_save_of_entry st ev o (k, v) hkv
      rw [hdt]
      simp [saveEntry, tbPart, mlPart, dictGet, FUNCTION_MAPPING]
  · constructor
    · apply mem_save_of_entry st ev o (k, v) hkv
      rw [hdt]
      simp [saveEntry, mlPart]
    · apply mem_save_of_entry st ev o (k, v) hkv
      rw [hdt]
      simp [saveEntry, tbPart, mlPart, dictGet, FUNCTION_MAPPING]
  · constructor
    · apply mem_save_of_entry st ev o (k, v) hkv
      rw [hdt]
      simp [saveEntry, tbPart, mlPart, dictGet, FUNCTION_MAPPING]
    · exact save_filter_mlflow_scalars st ev o hdt

/-- Witness for the amended C2 at a concrete input: a TEXT entry is
mirrored to MLflow via log_text. -/
theorem C2_tb_and_mlflow_witness :
    Effect.mlflowLogText (tagOf "peer" "note") (PyObj.mk 2) ∈
      (save (ReceiverState.mk [] "/r/tb")
        (AnalyticsEvent.mk AnalyticsDataType.TEXT [("note", PyObj.mk 2)]
          (PyKwargs.nonDict (PyObj.mk 0))) "peer").2 :=
  ((C2_tb_and_mlflow (ReceiverState.mk [] "/r/tb")
      (AnalyticsEvent.mk AnalyticsDataType.TEXT [("note", PyObj.mk 2)]
        (PyKwargs.nonDict (PyObj.mk 0))) "peer" "note" (PyObj.mk 2)
      (by decide)).2.1 rfl).1

/-- C4 counterexample: the receiver also handles `SCALARS` events, which
are outside the claimed set of scalars, text and images: for a `SCALARS`
event no error is logged and a TensorBoard write is performed. -/
theorem C4_counterexample :
    ((save (ReceiverState.mk [] "/w/tb")
        (AnalyticsEvent.mk AnalyticsDataType.SCALARS
          [("metrics", PyObj.mk 11)] (PyKwargs.nonDict (PyObj.mk 0)))
        "c1").2).countP isErrorLog = 0 ∧
    Effect.tbCall "add_scalars" "/w/tb/c1" "c1_metrics" (PyObj.mk 11)
        none ∈
      (save (ReceiverState.mk [] "/w/tb")
        (AnalyticsEvent.mk AnalyticsDataType.SCALARS
          [("metrics", PyObj.mk 11)] (PyKwargs.nonDict (PyObj.mk 0)))
        "c1").2 := by
  decide

/-- C4 (amended): the set of handled data types is exactly the four keys of
`FUNCTION_MAPPING` — SCALAR, TEXT, IMAGE and SCALARS: the lookup fails
precisely outside these four; for every unhandled data type each entry logs
an error and no write (TensorBoard or MLflow) is performed; and for every
handled type the mapped TensorBoard write is performed for each entry with
no error logged. -/
theorem C4_handled_exactly_function_mapping (st : ReceiverState)
    (ev : AnalyticsEvent) (o : String) :
    (dictGet FUNCTION_MAPPING ev.data_type = none ↔
      (ev.data_type ≠ AnalyticsDataType.SCALAR ∧
       ev.data_type ≠ AnalyticsDataType.TEXT ∧
       ev.data_type ≠ AnalyticsDataType.IMAGE ∧
       ev.data_type ≠ AnalyticsDataType.SCALARS)) ∧
    (dictGet FUNCTION_MAPPING ev.data_type = none →
      ((save st ev o).2).countP isErrorLog = ev.data.length ∧
      ∀ e ∈ (save st ev o).2, isTbCall e = false ∧ isMlflowCall e = false) ∧
    (∀ m, dictGet FUNCTION_MAPPING ev.data_type = some m →
      ((save st ev o).2).countP isErrorLog = 0 ∧
      ∀ k v, (k, v) ∈ ev.data →
        Effect.tbCall m (writerDirFor st o) (tagOf o k) v (kwOpt ev.kwargs) ∈
          (save st ev o).2) := by
  refine ⟨?_, ?_, ?_⟩
  · cases hdt : ev.data_type <;> simp [dictGet, FUNCTION_MAPPING]
  · intro hdt
    constructor
    · have h := countP_save_entries st ev o isErrorLog 1
        (fun kv _ => saveEntry_countP_error_unsupported _ _ _ _ _ hdt) rfl
      simpa using h
    · intro e he
      constructor
      · cases e
        case tbCall m d t w kw =>
          exact absurd he (save_no_tb_unsupported st ev o hdt m d t w kw)
        all_goals rfl
      · exact no_mlflow_of_filter_nil _ e
          (save_filter_mlflow_unsupported st ev o hdt) he
  · intro m hm
    constructor
    · have h := countP_save_entries st ev o isErrorLog 0
        (fun kv _ => saveEntry_countP_error_supported _ _ _ m _ _ hm) rfl
      simpa using h
    · intro k v hkv
      apply mem_save_of_entry st ev o (k, v) hkv
      simp [saveEntry, tbPart, hm]

/-- Witness for the amended C4 at a concrete input: a `PARAMETER` event
(outside the table) logs one error for its single entry. -/
theorem C4_handled_exactly_function_mapping_witness :
    ((save (ReceiverState.mk [] "/w/tb")
        (AnalyticsEvent.mk AnalyticsDataType.PARAMETER
          [("lr", PyObj.mk 3)] (PyKwargs.nonDict (PyObj.mk 0)))
        "c1").2).countP isErrorLog = 1 :=
  ((C4_handled_exactly_function_mapping (ReceiverState.mk [] "/w/tb")
      (AnalyticsEvent.mk AnalyticsDataType.PARAMETER
        [("lr", PyObj.mk 3)] (PyKwargs.nonDict (PyObj.mk 0)))
      "c1").2.1 rfl).1

/-- C6 counterexample: two distinct origins can share one log directory.
With root log directory `/ws/run_1/tb_events`, the relative origin `"x"`
and the absolute origin `"/ws/run_1/tb_events/x"` both get the writer
directory `/ws/run_1/tb_events/x` (`os.path.join` discards the first
component when the second is absolute), so events from these two distinct
origins are written under the same directory. -/
theorem C6_counterexample :
    "x" ≠ "/ws/run_1/tb_events/x" ∧
    Effect.createWriter "x" "/ws/run_1/tb_events/x" ∈
      (runSaves (receiverInit "tb_events" "/ws/run_1" "uri").1
        [(AnalyticsEvent.mk AnalyticsDataType.SCALAR [("a", PyObj.mk 1)]
            (PyKwargs.nonDict (PyObj.mk 0)), "x"),
         (AnalyticsEvent.mk AnalyticsDataType.SCALAR [("a", PyObj.mk 1)]
            (PyKwargs.nonDict (PyObj.mk 0)),
          "/ws/run_1/tb_events/x")]).2 ∧
    Effect.createWriter "/ws/run_1/tb_events/x" "/ws/run_1/tb_events/x" ∈
      (runSaves (receiverInit "tb_events" "/ws/run_1" "uri").1
        [(AnalyticsEvent.mk AnalyticsDataType.SCALAR [("a", PyObj.mk 1)]
            (PyKwargs.nonDict (PyObj.mk 0)), "x"),
         (AnalyticsEvent.mk AnalyticsDataType.SCALAR [("a", PyObj.mk 1)]
            (PyKwargs.nonDict (PyObj.mk 0)),
          "/ws/run_1/tb_events/x")]).2 := by
  decide

/-- C6 (amended): after `initialize` and any sequence of `save` calls, the
writer used for origin `p` has log directory
`join(join(run_dir, tb_folder), p)` where `join(run_dir, tb_folder)` is the
root log directory; and two distinct origins that are not absolute paths
(do not start with a slash) get distinct directories. -/
theorem C6_per_peer_directories (tb_folder run_dir uri : String)
    (evs : List (AnalyticsEvent × String)) (p p2 : String)
    (hp : p.data.head? ≠ some '/') (hp2 : p2.data.head? ≠ some '/')
    (hne : p ≠ p2) :
    (receiverInit tb_folder run_dir uri).1.root_log_dir =
      osPathJoin run_dir tb_folder ∧
    writerDirFor (runSaves (receiverInit tb_folder run_dir uri).1 evs).1 p =
      osPathJoin (osPathJoin run_dir tb_folder) p ∧
    writerDirFor (runSaves (receiverInit tb_folder run_dir uri).1 evs).1 p ≠
      writerDirFor (runSaves (receiverInit tb_folder run_dir uri).1 evs).1
        p2 := by
  have hroot : (runSaves (receiverInit tb_folder run_dir uri).1
      evs).1.root_log_dir = osPathJoin run_dir tb_folder := by
    rw [runSaves_root]
    rfl
  have hok : tableOk
      (runSaves (receiverInit tb_folder run_dir uri).1 evs).1.root_log_dir
      (runSaves (receiverInit tb_folder run_dir uri).1
        evs).1.writers_table := by
    have h1 := runSaves_tableOk (receiverInit tb_folder run_dir uri).1 evs
      (tableOk_nil _)
    rw [runSaves_root]
    exact h1
  have hwd1 := writerDirFor_of_tableOk _ p hok
  have hwd2 := writerDirFor_of_tableOk _ p2 hok
  refine ⟨rfl, ?_, ?_⟩
  · rw [hwd1, hroot]
  · rw [hwd1, hwd2, hroot]
    exact osPathJoin_inj_of_rel _ p p2 hp hp2 hne

/-- Witness for the amended C6 at a concrete input: two distinct relative
origins get distinct writer directories. -/
theorem C6_per_peer_directories_witness :
    writerDirFor (runSaves (receiverInit "tb" "/r" "u").1 []).1 "site-a" ≠
      writerDirFor (runSaves (receiverInit "tb" "/r" "u").1 []).1 "site-b" :=
  (C6_per_peer_directories "tb" "/r" "u" [] "site-a" "site-b" (by decide)
    (by decide) (by decide)).2.2

/-- C8: writer-cache invariant.  Starting from the post-initialize state
(empty table, root log directory `r`), after any sequence of `save` calls
the table maps every origin seen in the sequence to the writer with log
directory `join(r, origin)`; at most one writer is ever created per origin
in the whole trace; and a further `save` for an already-seen origin leaves
the state unchanged and reuses that writer (its entries are written through
the writer with directory `join(r, origin)` and no new writer is
created). -/
theorem C8_writer_cache_invariant (r : String)
    (evs : List (AnalyticsEvent × String)) (ev : AnalyticsEvent)
    (o : String) (hmem : (ev, o) ∈ evs) :
    dictGet (runSaves (ReceiverState.mk [] r) evs).1.writers_table o =
      some (osPathJoin r o) ∧
    createsFor o (runSaves (ReceiverState.mk [] r) evs).2 ≤ 1 ∧
    ∀ ev2,
      save (runSaves (ReceiverState.mk [] r) evs).1 ev2 o =
        ((runSaves (ReceiverState.mk [] r) evs).1,
          (ev2.data.map (saveEntry (osPathJoin r o) o ev2.data_type
            ev2.kwargs)).flatten) := by
  have hok : tableOk r
      (runSaves (ReceiverState.mk [] r) evs).1.writers_table :=
    runSaves_tableOk (ReceiverState.mk [] r) evs (tableOk_nil r)
  have hlk : dictGet (runSaves (ReceiverState.mk [] r) evs).1.writers_table
      o = some (osPathJoin r o) := by
    obtain ⟨d, hd⟩ := runSaves_lookup_of_mem (ReceiverState.mk [] r) evs ev
      o hmem
    have he := hok o d hd
    rw [hd, he]
  refine ⟨hlk, createsFor_runSaves_le_one _ _ _, ?_⟩
  intro ev2
  have hwd : writerDirFor (runSaves (ReceiverState.mk [] r) evs).1 o =
      osPathJoin r o := by
    unfold writerDirFor
    rw [hlk]
  have h1 := save_state_cached (runSaves (ReceiverState.mk [] r) evs).1 ev2
    o _ hlk
  have h2 : (save (runSaves (ReceiverState.mk [] r) evs).1 ev2 o).2 =
      (ev2.data.map (saveEntry (osPathJoin r o) o ev2.data_type
        ev2.kwargs)).flatten := by
    rw [save_effects, hlk, hwd]
    simp
  exact Prod.ext_iff.mpr ⟨h1, h2⟩

/-- Witness for C8 at a concrete input: after one save from origin `"p"`,
the table maps `"p"` to the writer with directory `join("/r", "p")`. -/
theorem C8_writer_cache_invariant_witness :
    dictGet (runSaves (ReceiverState.mk [] "/r")
        [(AnalyticsEvent.mk AnalyticsDataType.SCALAR [("a", PyObj.mk 1)]
            (PyKwargs.nonDict (PyObj.mk 0)), "p")]).1.writers_table "p" =
      some (osPathJoin "/r" "p") :=
  (C8_writer_cache_invariant "/r"
      [(AnalyticsEvent.mk AnalyticsDataType.SCALAR [("a", PyObj.mk 1)]
          (PyKwargs.nonDict (PyObj.mk 0)), "p")]
      (AnalyticsEvent.mk AnalyticsDataType.SCALAR [("a", PyObj.mk 1)]
        (PyKwargs.nonDict (PyObj.mk 0))) "p" (by decide)).1
